import Mathlib

/-!
Shallow embedding of `tokenify.py` (amiibozos): sampling of svg paths into
physical-unit polygons, stable grouping of shapes by color, generation of
scad identifiers for groups, and the front/back face rendering protocol.
External collaborators from `svg_extrude` whose source is not part of this
repository are modelled from the spec and marked as such in their doc
comments.  Coordinates are modelled as rational numbers.
-/

namespace Tokenify

/-- A sampled 2D point, as produced by the external svg library and as emitted
by the sampler; coordinates are modelled as rationals. -/
structure Point where
  x : ℚ
  y : ℚ
deriving DecidableEq

/-- Modelled from the spec: `Color` (svg_extrude.model) is an opaque color
value parsed from its textual representation; the html text is kept as the
value, which is all the grouping and naming code observes. -/
structure Color where
  html : String
deriving DecidableEq

/-- Modelled from the spec: `Color.from_html` parses a textual color
representation. -/
def Color.from_html (s : String) : Color := ⟨s⟩

/-- A shape: svg path id, resolved fill color, and the polygon as a tuple of
sampled paths (`Shape(svg_path.id, fill, polygon)`). -/
structure Shape where
  id : String
  color : Color
  polygon : List (List Point)
deriving DecidableEq

/-- Input to `TokenShape.from_svg_path`: one svg path together with its
extracted style values (the results of `extract_value(svg_path.style, ...)`)
and the polyline segments produced by the external
`svg_path.segments(precision)` sampling operation. -/
structure SvgPath where
  id : String
  fill_rule : Option String
  stroke : Option String
  fill : Option String
  segments : List (List Point)

/-- The unit constant of the code: `px = 25.4e-3 / 72`. -/
def px : ℚ := (254 / 10000) / 72

/-- Python builtin `round`: round to the nearest integer, ties to even. -/
def pythonRound (q : ℚ) : ℤ :=
  let f := ⌊q⌋
  let r := q - f
  if r < 1 / 2 then f
  else if 1 / 2 < r then f + 1
  else if f % 2 = 0 then f else f + 1

/-- The local helper `length` of `TokenShape.from_svg_path`: scale a native
coordinate by `px`, then snap to a multiple of the step when `snap` is truthy
(in Python, `if snap:` is false both for `None` and for `0.0`). -/
def length (snap : Option ℚ) (v : ℚ) : ℚ :=
  let w := v * px
  match snap with
  | none => w
  | some s => if s = 0 then w else s * pythonRound (w / s)

/-- The local helper `point` of `TokenShape.from_svg_path`: mirror the native
x-coordinate as `90 - x` when `reverse` is set, then convert each axis via
`length`. -/
def point (reverse : Bool) (snap : Option ℚ) (p : Point) : Point :=
  { x := if reverse then length snap (90 - p.x) else length snap p.x,
    y := length snap p.y }

/-- Modelled from the spec: `filter_repetition` (svg_extrude.util.iter) drops
consecutive duplicate elements of a sequence. -/
def filter_repetition : List Point → List Point
  | [] => []
  | [a] => [a]
  | a :: b :: rest =>
      if a = b then filter_repetition (b :: rest)
      else a :: filter_repetition (b :: rest)

/-- The local helper `path` of `TokenShape.from_svg_path`: drop consecutive
duplicates of the raw segment, then transform each remaining point. -/
def path (reverse : Bool) (snap : Option ℚ) (segment : List Point) : List Point :=
  (filter_repetition segment).map (point reverse snap)

/-- `TokenShape.from_svg_path`.  The module `tokenify.py` never defines or
imports `logger`, so actually reaching either warning call raises a Python
`NameError`; that failure is modelled as an `Except.error`. -/
def from_svg_path (p : SvgPath) (snap : Option ℚ) (reverse : Bool) : Except String Shape :=
  if ¬(p.fill_rule = none ∨ p.fill_rule = some "evenodd") then
    Except.error "NameError"
  else if ¬(p.stroke = none ∨ p.stroke = some "none") then
    Except.error "NameError"
  else
    let fill := match p.fill with
      | none => "#000000"
      | some s => if s = "" then "#000000" else s
    Except.ok { id := p.id, color := Color.from_html fill,
                polygon := p.segments.map (path reverse snap) }

/-- The distinct keys of a list in order of first occurrence. -/
def firstOccurrences {κ : Type} [DecidableEq κ] : List κ → List κ
  | [] => []
  | k :: rest => k :: (firstOccurrences rest).filter (fun x => decide (x ≠ k))

/-- Modelled from the spec: `group_by` (svg_extrude.util) groups the elements
of a sequence by key, preserving each element's relative order within its
group, with the groups enumerated in order of first occurrence of each
distinct key (Python insertion-ordered dict-of-lists semantics). -/
def group_by {α κ : Type} [DecidableEq κ] (key : α → κ) (l : List α) :
    List (κ × List α) :=
  (firstOccurrences (l.map key)).map
    (fun k => (k, l.filter (fun a => decide (key a = k))))

/-- A color group: classified color, member shapes, and originating scene
name.  Dataclass field order follows construction order in the code:
the inherited `color` and `shapes` fields first, then `name`. -/
structure TokenGroup where
  color : Color
  shapes : List Shape
  name : String
deriving DecidableEq

/-- `TokenGroup.by_color`: group shapes by their mapped color; the mapping
defaults to the identity when no palette is supplied
(`if color_mapping is None: color_mapping = identity`). -/
def by_color (shapes : List Shape) (color_mapping : Option (Color → Color))
    (name : String) : List TokenGroup :=
  let cm := color_mapping.getD id
  (group_by (fun s => cm s.color) shapes).map
    (fun p => { color := p.1, shapes := p.2, name := name })

/-- A scene: all shapes of one artwork file plus the derived color groups. -/
structure TokenScene where
  shapes : List Shape
  groups : List TokenGroup
deriving DecidableEq

/-- The shape-sampling loop of `TokenScene.from_svg`
(`tuple(TokenShape.from_svg_path(path, ...) for path in svg_paths)`): paths
are sampled in order and the first failure propagates. -/
def sample_paths (snap : Option ℚ) (reverse : Bool) :
    List SvgPath → Except String (List Shape)
  | [] => Except.ok []
  | p :: rest => do
      let s ← from_svg_path p snap reverse
      let ss ← sample_paths snap reverse rest
      Except.ok (s :: ss)

/-- `TokenScene.from_svg`: sample every flattened svg path of the file and
group the resulting shapes by color.  The external parse/flatten step is the
`svg_paths` argument; with a palette, the color mapping is its `closest`
lookup, modelled directly as the function. -/
def TokenScene.from_svg (file_name : String) (svg_paths : List SvgPath)
    (available_colors : Option (Color → Color)) (snap : Option ℚ)
    (reverse : Bool) : Except String TokenScene := do
  let shapes ← sample_paths snap reverse svg_paths
  Except.ok { shapes := shapes, groups := by_color shapes available_colors file_name }

/-- Modelled from the spec: `sanitize_identifier` (svg_extrude.output_writer)
makes a name safe for the scad symbol syntax by replacing non-alphanumeric
characters. -/
def sanitize_identifier (s : String) : String :=
  String.mk (s.data.map (fun c => if c.isAlphanum then c else '_'))

/-- The name record created by `TokenGroupNames.__init__`: every identifier in
the record is derived from the group scene name and its color display name
only (the member shapes do not participate). -/
structure TokenGroupNames where
  name : String
  group : String
  solid : String
deriving DecidableEq

/-- `TokenGroupNames.__init__`, with the external `display_name` operation on
colors passed as a parameter. -/
def mkTokenGroupNames (display_name : Color → String) (g : TokenGroup) :
    TokenGroupNames :=
  let name := sanitize_identifier (g.name ++ "_" ++ display_name g.color)
  { name := name, group := "group_" ++ name, solid := "solid_" ++ name }

/-- A Python runtime object holding a `TokenGroup`: an object identity paired
with the dataclass value.  Frozen dataclasses compare and hash by value, so
dictionaries keyed by such objects observe only the value part. -/
abbrev GroupEntity := Nat × TokenGroup

/-- One lookup in the `FactoryDict` group-name cache of
`TokenOutputWriter.__init__` (`self._group_names`): return the record cached
for the key — compared by dataclass value equality — creating it with
`TokenGroupNames` and inserting it on a miss. -/
def group_names_lookup (display_name : Color → String)
    (cache : List (TokenGroup × TokenGroupNames)) (e : GroupEntity) :
    TokenGroupNames × List (TokenGroup × TokenGroupNames) :=
  match cache.find? (fun q => decide (q.1 = e.2)) with
  | some q => (q.2, cache)
  | none =>
      (mkTokenGroupNames display_name e.2,
       cache ++ [(e.2, mkTokenGroupNames display_name e.2)])

/-- One writer call of the rendering protocol, in emission order. -/
inductive WriterEvent where
  | points_and_paths (shapes : List Shape)
  | shapes_def (shapes : List Shape)
  | clipped_shapes (shapes : List Shape)
  | groups_def (groups : List TokenGroup)
  | solids (groups : List TokenGroup) (height : ℚ)
  | flip_begin (flipped : Bool)
  | flip_end
  | instantiate_groups (groups : List TokenGroup) (offset : ℚ)
deriving DecidableEq

/-- The body of `render_faces` with its local binding `thickness` abstracted
(the local `flip` is `False`, so `conditional_context(flip is not None, ...)`
always applies the flip context with argument `False`). -/
def render_faces_with (thickness : ℚ) (scene_front scene_back : TokenScene) :
    List WriterEvent :=
  [ WriterEvent.points_and_paths scene_front.shapes,
    WriterEvent.shapes_def scene_front.shapes,
    WriterEvent.clipped_shapes scene_front.shapes,
    WriterEvent.groups_def scene_front.groups,
    WriterEvent.solids scene_front.groups thickness,
    WriterEvent.flip_begin false,
    WriterEvent.instantiate_groups scene_front.groups 0,
    WriterEvent.flip_end,
    WriterEvent.points_and_paths scene_back.shapes,
    WriterEvent.shapes_def scene_back.shapes,
    WriterEvent.clipped_shapes scene_back.shapes,
    WriterEvent.groups_def scene_back.groups,
    WriterEvent.solids scene_back.groups thickness,
    WriterEvent.flip_begin false,
    WriterEvent.instantiate_groups scene_back.groups (184 / 100),
    WriterEvent.flip_end ]

/-- `render_faces`: the local binding is `thickness = 0.72`. -/
def render_faces (scene_front scene_back : TokenScene) : List WriterEvent :=
  render_faces_with (72 / 100) scene_front scene_back

/-- The group-instantiation statements of an event stream, in order, as pairs
of the instantiated groups and the z-offset. -/
def instantiations : List WriterEvent → List (List TokenGroup × ℚ)
  | [] => []
  | WriterEvent.instantiate_groups gs off :: rest => (gs, off) :: instantiations rest
  | _ :: rest => instantiations rest

/-- Python builtin `max` over a sequence: raises on an empty sequence,
modelled as `none`. -/
def pymax : List ℚ → Option ℚ
  | [] => none
  | a :: rest => some (rest.foldl max a)

/-- The per-group report value computed by `show_info`: the maximum ΔE over
the group members, with the external perceptual metric `delta_e` passed as a
parameter. -/
def max_delta_e (delta_e : Color → Color → ℚ) (g : TokenGroup) : Option ℚ :=
  pymax (g.shapes.map (fun s => delta_e s.color g.color))

/-- A one-path artwork file used to exercise the pipeline: when the same file
serves as both the front and the back face of one token
(`make_amiibozo(front, series[backside])` allows this), both scenes carry the
same scene name. -/
def facePathsDemo : List SvgPath :=
  [{ id := "p1", fill_rule := none, stroke := none, fill := none,
     segments := [[⟨0, 0⟩, ⟨10, 0⟩, ⟨10, 10⟩]] }]

/-- The groups of the front scene built from `facePathsDemo`. -/
def frontGroupsDemo : List TokenGroup :=
  ((TokenScene.from_svg "svgs/a.svg" facePathsDemo none none false).toOption.map
    TokenScene.groups).getD []

/-- The groups of the back scene built from `facePathsDemo` with path-level
mirroring enabled, as `create_scene(..., reverse=True)` does. -/
def backGroupsDemo : List TokenGroup :=
  ((TokenScene.from_svg "svgs/a.svg" facePathsDemo none none true).toOption.map
    TokenScene.groups).getD []

section GroupingLemmas

variable {α κ : Type} [DecidableEq κ]

lemma mem_firstOccurrences {l : List κ} {x : κ} :
    x ∈ firstOccurrences l ↔ x ∈ l := by
  induction l with
  | nil => simp [firstOccurrences]
  | cons k rest ih =>
      by_cases hx : x = k
      · simp [firstOccurrences, hx]
      · simp [firstOccurrences, hx, List.mem_filter, ih]

lemma firstOccurrences_nodup (l : List κ) : (firstOccurrences l).Nodup := by
  induction l with
  | nil => simp [firstOccurrences]
  | cons k rest ih =>
      refine List.Nodup.cons ?_ (List.Nodup.filter _ ih)
      intro hk
      have := (List.mem_filter.1 hk).2
      simp at this

lemma join_filter_perm (key : α → κ) :
    ∀ (ks : List κ) (l : List α), ks.Nodup → (∀ a ∈ l, key a ∈ ks) →
      List.Perm ((ks.map (fun k => l.filter (fun a => decide (key a = k)))).flatten) l := by
  intro ks
  induction ks with
  | nil =>
      intro l _ hcov
      have : l = [] := List.eq_nil_iff_forall_not_mem.2 (fun a ha => by simpa using hcov a ha)
      simp [this]
  | cons k ks ih =>
      intro l hnd hcov
      have hk_not : k ∉ ks := (List.nodup_cons.1 hnd).1
      have hnd2 : ks.Nodup := (List.nodup_cons.1 hnd).2
      set l2 := l.filter (fun a => !(decide (key a = k))) with hl2
      have hcov2 : ∀ a ∈ l2, key a ∈ ks := by
        intro a ha
        have hal : a ∈ l := (List.mem_filter.1 ha).1
        have hne : ¬ (key a = k) := by
          have := (List.mem_filter.1 ha).2
          simpa using this
        have := hcov a hal
        simp [hne] at this
        exact this
      have hmaps : ks.map (fun k2 => l.filter (fun a => decide (key a = k2)))
          = ks.map (fun k2 => l2.filter (fun a => decide (key a = k2))) := by
        apply List.map_congr_left
        intro k2 hk2
        have hkk2 : k2 ≠ k := fun h => hk_not (h ▸ hk2)
        rw [hl2, List.filter_filter]
        apply List.filter_congr
        intro a _
        by_cases h : key a = k2
        · simp [h, hkk2]
        · simp [h]
      have hjoin :
          (((k :: ks).map (fun k2 => l.filter (fun a => decide (key a = k2)))).flatten)
            = l.filter (fun a => decide (key a = k))
                ++ (ks.map (fun k2 => l2.filter (fun a => decide (key a = k2)))).flatten := by
        simp [hmaps]
      rw [hjoin]
      have ihl2 := ih l2 hnd2 hcov2
      have h2 := ihl2.append_left (l.filter (fun a => decide (key a = k)))
      refine h2.trans ?_
      rw [hl2]
      exact List.filter_append_perm _ l

end GroupingLemmas

lemma by_color_eq (shapes : List Shape) (cm : Option (Color → Color)) (name : String) :
    by_color shapes cm name
      = (firstOccurrences (shapes.map (fun s => (cm.getD id) s.color))).map
          (fun k => { color := k,
                      shapes := shapes.filter (fun s => decide ((cm.getD id) s.color = k)),
                      name := name }) := by
  simp [by_color, group_by, List.map_map]

lemma by_color_shapes_flatten_perm (shapes : List Shape) (cm : Option (Color → Color))
    (name : String) :
    List.Perm (((by_color shapes cm name).map TokenGroup.shapes).flatten) shapes := by
  have h : (by_color shapes cm name).map TokenGroup.shapes
      = (firstOccurrences (shapes.map (fun s => (cm.getD id) s.color))).map
          (fun k => shapes.filter (fun s => decide ((cm.getD id) s.color = k))) := by
    rw [by_color_eq]
    simp [List.map_map]
  rw [h]
  apply join_filter_perm
  · exact firstOccurrences_nodup _
  · intro a ha
    exact mem_firstOccurrences.2 (List.mem_map_of_mem _ ha)

lemma by_color_colors (shapes : List Shape) (cm : Option (Color → Color))
    (name : String) :
    (by_color shapes cm name).map TokenGroup.color
      = firstOccurrences (shapes.map (fun s => (cm.getD id) s.color)) := by
  rw [by_color_eq, List.map_map]
  exact List.map_id _

lemma by_color_colors_nodup (shapes : List Shape) (cm : Option (Color → Color))
    (name : String) : ((by_color shapes cm name).map TokenGroup.color).Nodup := by
  rw [by_color_colors]
  exact firstOccurrences_nodup _

lemma shapes_ne_nil_of_mem_by_color (shapes : List Shape) (cm : Option (Color → Color))
    (name : String) (g : TokenGroup) (hg : g ∈ by_color shapes cm name) :
    g.shapes ≠ [] := by
  rw [by_color_eq] at hg
  obtain ⟨k, hk, rfl⟩ := List.mem_map.1 hg
  have hk2 : k ∈ shapes.map (fun s => (cm.getD id) s.color) := mem_firstOccurrences.1 hk
  obtain ⟨s, hs, hks⟩ := List.mem_map.1 hk2
  have hmem : s ∈ shapes.filter (fun s => decide ((cm.getD id) s.color = k)) := by
    rw [List.mem_filter]
    exact ⟨hs, by simp [hks]⟩
  exact List.ne_nil_of_mem hmem

lemma pymax_map_isSome (f : Shape → ℚ) (l : List Shape) (h : l ≠ []) :
    (pymax (l.map f)).isSome := by
  cases l with
  | nil => exact absurd rfl h
  | cons a rest => simp [pymax]

/-- C4: for every scene built from a sequence of shapes, grouping by
classified color is a stable partition: the concatenation of the group member
lists is a permutation of the input shapes (each shape appears exactly once
across all groups), each group consists exactly of the input shapes with its
classified color in input order, the groups are enumerated in order of first
occurrence of each distinct classified color, and no two groups share a
classified color. -/
theorem by_color_partition (cm : Option (Color → Color)) (name : String)
    (shapes : List Shape) :
    List.Perm (((by_color shapes cm name).map TokenGroup.shapes).flatten) shapes
    ∧ by_color shapes cm name
        = (firstOccurrences (shapes.map (fun s => (cm.getD id) s.color))).map
            (fun k => { color := k,
                        shapes := shapes.filter (fun s => decide ((cm.getD id) s.color = k)),
                        name := name })
    ∧ ((by_color shapes cm name).map TokenGroup.color).Nodup :=
  ⟨by_color_shapes_flatten_perm shapes cm name, by_color_eq shapes cm name,
   by_color_colors_nodup shapes cm name⟩

/-- C10: every group produced by the color-grouping operation has at least one
member shape, so the per-group report maximum of `show_info` is well-defined
(the maximum over the members is `some` value, never the empty-sequence
failure). -/
theorem group_max_delta_e_defined (delta_e : Color → Color → ℚ)
    (cm : Option (Color → Color)) (name : String) (shapes : List Shape)
    (g : TokenGroup) (hg : g ∈ by_color shapes cm name) :
    g.shapes ≠ [] ∧ (max_delta_e delta_e g).isSome := by
  have hne := shapes_ne_nil_of_mem_by_color shapes cm name g hg
  exact ⟨hne, pymax_map_isSome _ _ hne⟩

/-- C10 witness: a concrete one-shape scene; its single group is nonempty and
its report maximum is defined. -/
theorem group_max_delta_e_defined_witness :
    ({ color := ⟨"#000000"⟩, shapes := [{ id := "s", color := ⟨"#000000"⟩, polygon := [] }],
       name := "f" } : TokenGroup)
        ∈ by_color [{ id := "s", color := ⟨"#000000"⟩, polygon := [] }] none "f"
    ∧ (({ color := ⟨"#000000"⟩,
          shapes := [{ id := "s", color := ⟨"#000000"⟩, polygon := [] }],
          name := "f" } : TokenGroup).shapes ≠ []
        ∧ (max_delta_e (fun _ _ => 0)
            { color := ⟨"#000000"⟩,
              shapes := [{ id := "s", color := ⟨"#000000"⟩, polygon := [] }],
              name := "f" }).isSome) :=
  ⟨by decide,
   group_max_delta_e_defined (fun _ _ => 0) none "f"
     [{ id := "s", color := ⟨"#000000"⟩, polygon := [] }]
     { color := ⟨"#000000"⟩,
       shapes := [{ id := "s", color := ⟨"#000000"⟩, polygon := [] }],
       name := "f" } (by decide)⟩

/-- C8: the group instantiations of the face-rendering protocol place the
front groups at z-offset 0 and the back groups at the fixed constant 1.84,
for every value of the layer thickness binding. -/
theorem back_offset_constant (t : ℚ) (sf sb : TokenScene) :
    instantiations (render_faces_with t sf sb) = [(sf.groups, 0), (sb.groups, 184 / 100)]
    ∧ render_faces sf sb = render_faces_with (72 / 100) sf sb :=
  ⟨rfl, rfl⟩

/-- C1: the code scales native coordinates by `25.4e-3 / 72`, not by the
`25.4 / 72` millimeters-per-point factor the claim states: the native point
(72, 72), sampled without snapping and without mirroring, is emitted as
(127/5000, 127/5000) = (0.0254, 0.0254), whereas the claim demands
72 · (25.4/72) = 25.4. -/
theorem unit_scale_code_eval :
    point false none ⟨72, 72⟩ = ⟨127 / 5000, 127 / 5000⟩
    ∧ (127 / 5000 : ℚ) ≠ 72 * ((254 / 10) / 72) := by
  refine ⟨?_, ?_⟩ <;> norm_num [point, length, px]

/-- C2: with mirroring enabled the code emits ((90 − x) · px, y · px) for the
fixed width constant 90, but with px = 25.4e-3/72 rather than the claimed
25.4/72 scale: at native (10, 20) the emitted point differs from the claimed
((90 − 10) · 25.4/72, 20 · 25.4/72). -/
theorem mirror_code_eval :
    point true none ⟨10, 20⟩ = ⟨(90 - 10) * ((254 / 10000) / 72), 20 * ((254 / 10000) / 72)⟩
    ∧ point true none ⟨10, 20⟩ ≠ ⟨(90 - 10) * ((254 / 10) / 72), 20 * ((254 / 10) / 72)⟩ := by
  refine ⟨?_, ?_⟩ <;> norm_num [point, length, px, Point.mk.injEq]

/-- C3: a path whose fill-rule is present and unsupported, or whose stroke is
present and not "none", makes `from_svg_path` raise `NameError` (the module
never defines `logger`), so sampling fails instead of warning and returning a
Shape. -/
theorem style_warning_raises :
    from_svg_path { id := "p1", fill_rule := some "nonzero", stroke := none,
                    fill := none, segments := [] } none false
      = Except.error "NameError"
    ∧ from_svg_path { id := "p2", fill_rule := none, stroke := some "#000000",
                      fill := none, segments := [] } none false
      = Except.error "NameError" :=
  ⟨rfl, rfl⟩


lemma pythonRound_of_lt_half (q : ℚ) (h0 : 0 ≤ q) (h : q < 1 / 2) :
    pythonRound q = 0 := by
  have hf : ⌊q⌋ = 0 := Int.floor_eq_zero_iff.2 ⟨h0, by linarith⟩
  simp [pythonRound, hf]
  intro hc
  linarith

lemma length_snap_multiple (S v : ℚ) (hS : S ≠ 0) :
    ∃ k : ℤ, length (some S) v = k * S :=
  ⟨pythonRound (v * px / S), by simp [length, hS, mul_comm]⟩

/-- C9: with a positive snap step S, every coordinate of every point emitted
by sampling is an exact integer multiple of S (each axis snapped
independently, after unit scaling). -/
theorem snap_exact_multiple (S : ℚ) (reverse : Bool) (seg : List Point)
    (p : Point) (hS : 0 < S) (hp : p ∈ path reverse (some S) seg) :
    (∃ k : ℤ, p.x = k * S) ∧ (∃ m : ℤ, p.y = m * S) := by
  obtain ⟨q, _, rfl⟩ := List.mem_map.1 hp
  have hS0 : S ≠ 0 := ne_of_gt hS
  constructor
  · cases reverse with
    | false => simpa [point] using length_snap_multiple S q.x hS0
    | true => simpa [point] using length_snap_multiple S (90 - q.x) hS0
  · simpa [point] using length_snap_multiple S q.y hS0

/-- C9 witness: with snap step 1 the single emitted point of a concrete
segment has both coordinates an integer multiple of 1. -/
theorem snap_exact_multiple_witness :
    (0 : ℚ) < 1
    ∧ ((∃ k : ℤ, (Point.mk 0 0).x = k * 1) ∧ (∃ m : ℤ, (Point.mk 0 0).y = m * 1)) :=
  ⟨by norm_num,
   snap_exact_multiple 1 false [⟨0, 0⟩] ⟨0, 0⟩ (by norm_num)
     (by norm_num [path, filter_repetition, point, length, pythonRound])⟩

lemma point_none_injective (reverse : Bool) (p q : Point)
    (h : point reverse none p = point reverse none q) : p = q := by
  have hpx : px ≠ 0 := by norm_num [px]
  cases p with
  | mk a b =>
    cases q with
    | mk c d =>
      cases reverse with
      | false =>
          simp [point, length, Point.mk.injEq] at h ⊢
          obtain ⟨hx, hy⟩ := h
          exact ⟨hx.resolve_right hpx, hy.resolve_right hpx⟩
      | true =>
          simp [point, length, Point.mk.injEq] at h ⊢
          obtain ⟨hx, hy⟩ := h
          have hx2 := hx.resolve_right hpx
          have hy2 := hy.resolve_right hpx
          constructor
          · linarith
          · exact hy2

lemma filter_repetition_head (b : Point) (rest : List Point) :
    (filter_repetition (b :: rest)).head? = some b := by
  induction rest generalizing b with
  | nil => rfl
  | cons c r ih =>
      by_cases h : b = c
      · simpa [filter_repetition, h] using ih c
      · simp [filter_repetition, h]

lemma filter_repetition_chain (l : List Point) :
    List.Chain' (fun a b : Point => a ≠ b) (filter_repetition l) := by
  induction l with
  | nil => simp [filter_repetition]
  | cons a rest ih =>
      cases rest with
      | nil => simp [filter_repetition]
      | cons b r =>
          by_cases h : a = b
          · simpa [filter_repetition, h] using ih
          · rw [show filter_repetition (a :: b :: r) = a :: filter_repetition (b :: r)
                from by simp [filter_repetition, h]]
            refine List.chain'_cons'.2 ⟨?_, ih⟩
            intro y hy
            rw [filter_repetition_head b r] at hy
            cases hy
            exact h

/-- C7 amended: with snapping disabled, the emitted point sequence of each
sampled path has no two consecutive equal points (the duplicate filter runs on
the raw points and the unit-scaling transform is injective). -/
theorem no_snap_no_consecutive_dup (reverse : Bool) (seg : List Point) :
    List.Chain' (fun a b : Point => a ≠ b) (path reverse none seg) := by
  rw [path, List.chain'_map]
  refine (filter_repetition_chain seg).imp ?_
  intro a b hab hcontr
  exact hab (point_none_injective reverse a b hcontr)

/-- C7 counterexample: with snap step 1 the distinct native points (0,0) and
(1,0) both snap to the origin, so the emitted path contains two consecutive
equal points. -/
theorem snap_consecutive_duplicate :
    path false (some 1) [⟨0, 0⟩, ⟨1, 0⟩] = [⟨0, 0⟩, ⟨0, 0⟩]
    ∧ ¬ List.Chain' (fun a b : Point => a ≠ b) (path false (some 1) [⟨0, 0⟩, ⟨1, 0⟩]) := by
  have hrpx : pythonRound px = 0 := by
    apply pythonRound_of_lt_half <;> norm_num [px]
  have hr0 : pythonRound 0 = 0 := by
    apply pythonRound_of_lt_half <;> norm_num
  have e0 : point false (some 1) ⟨0, 0⟩ = ⟨0, 0⟩ := by
    simp [point, length, hr0]
  have e1 : point false (some 1) ⟨1, 0⟩ = ⟨0, 0⟩ := by
    simp [point, length, hrpx, hr0]
  have hpath : path false (some 1) [⟨0, 0⟩, ⟨1, 0⟩] = [⟨0, 0⟩, ⟨0, 0⟩] := by
    have hne : (⟨0, 0⟩ : Point) ≠ ⟨1, 0⟩ := by
      simp [Point.mk.injEq]
    simp [path, filter_repetition, hne, e0, e1]
  refine ⟨hpath, ?_⟩
  rw [hpath]
  simp [List.chain'_cons]

/-- C5 counterexample: two distinct runtime entities holding value-equal
groups — looked up in sequence within one session — receive the same name
record, because the cache keys on dataclass value equality. -/
theorem value_equal_groups_share_name :
    ((0, { color := ⟨"#000000"⟩, shapes := [], name := "a" }) : GroupEntity)
      ≠ (1, { color := ⟨"#000000"⟩, shapes := [], name := "a" })
    ∧ (group_names_lookup (fun _ => "black") []
          (0, { color := ⟨"#000000"⟩, shapes := [], name := "a" })).1
        = (group_names_lookup (fun _ => "black")
            (group_names_lookup (fun _ => "black") []
              (0, { color := ⟨"#000000"⟩, shapes := [], name := "a" })).2
            (1, { color := ⟨"#000000"⟩, shapes := [], name := "a" })).1 :=
  ⟨by decide, rfl⟩

/-- C5 amended: the name cache is keyed by dataclass value, not identity:
within one session, looking up any two value-equal group entities (the same
entity included) yields the same name record. -/
theorem group_names_value_keyed (dn : Color → String)
    (cache : List (TokenGroup × TokenGroupNames)) (e1 e2 : GroupEntity)
    (h : e1.2 = e2.2) :
    (group_names_lookup dn (group_names_lookup dn cache e1).2 e2).1
      = (group_names_lookup dn cache e1).1 := by
  obtain ⟨i1, g⟩ := e1
  obtain ⟨i2, g2⟩ := e2
  cases h
  cases hf : cache.find? (fun q => decide (q.1 = g)) with
  | some q => simp [group_names_lookup, hf]
  | none => simp [group_names_lookup, hf, List.find?_append]

/-- C5 amended witness: the concrete lookups of the counterexample scenario
agree, as the amended statement predicts. -/
theorem group_names_value_keyed_witness :
    ((0, { color := ⟨"#000000"⟩, shapes := [], name := "a" }) : GroupEntity).2
      = ((1, { color := ⟨"#000000"⟩, shapes := [], name := "a" }) : GroupEntity).2
    ∧ (group_names_lookup (fun _ => "black")
          (group_names_lookup (fun _ => "black") []
            (0, { color := ⟨"#000000"⟩, shapes := [], name := "a" })).2
          (1, { color := ⟨"#000000"⟩, shapes := [], name := "a" })).1
        = (group_names_lookup (fun _ => "black") []
            (0, { color := ⟨"#000000"⟩, shapes := [], name := "a" })).1 :=
  ⟨rfl, group_names_value_keyed (fun _ => "black") [] _ _ rfl⟩

/-- C6 amended: front and back scenes share one identifier registry; two group
name records coincide exactly when the sanitized scene-name-plus-color
identifiers coincide — so symbols of the two faces stay distinct only under
that condition. -/
theorem group_names_collision_iff (dn : Color → String) (g1 g2 : TokenGroup) :
    mkTokenGroupNames dn g1 = mkTokenGroupNames dn g2
      ↔ sanitize_identifier (g1.name ++ "_" ++ dn g1.color)
          = sanitize_identifier (g2.name ++ "_" ++ dn g2.color) := by
  constructor
  · intro h
    exact congrArg TokenGroupNames.name h
  · intro h
    simp [mkTokenGroupNames, h]

/-- C6 counterexample: one token whose front and back faces come from the same
artwork file yields distinct front and back group entities whose generated
name records — produced by the single shared registry of the one
`TokenOutputWriter` used for both faces — are identical, so the symbols
collide. -/
theorem front_back_name_collision :
    frontGroupsDemo.length = 1
    ∧ backGroupsDemo.length = 1
    ∧ frontGroupsDemo ≠ backGroupsDemo
    ∧ frontGroupsDemo.map (mkTokenGroupNames (fun _ => "black"))
        = backGroupsDemo.map (mkTokenGroupNames (fun _ => "black")) := by
  have hfront : frontGroupsDemo
      = [{ color := ⟨"#000000"⟩,
           shapes := [{ id := "p1", color := ⟨"#000000"⟩,
                        polygon := [[⟨0, 0⟩, ⟨127 / 36000, 0⟩, ⟨127 / 36000, 127 / 36000⟩]] }],
           name := "svgs/a.svg" }] := by
    norm_num [frontGroupsDemo, TokenScene.from_svg, sample_paths, facePathsDemo,
      from_svg_path, path, filter_repetition, point, length, px, Color.from_html,
      by_color, group_by, firstOccurrences, Point.mk.injEq, Except.toOption,
      bind, Except.bind]
  have hback : backGroupsDemo
      = [{ color := ⟨"#000000"⟩,
           shapes := [{ id := "p1", color := ⟨"#000000"⟩,
                        polygon := [[⟨127 / 4000, 0⟩, ⟨127 / 4500, 0⟩, ⟨127 / 4500, 127 / 36000⟩]] }],
           name := "svgs/a.svg" }] := by
    norm_num [backGroupsDemo, TokenScene.from_svg, sample_paths, facePathsDemo,
      from_svg_path, path, filter_repetition, point, length, px, Color.from_html,
      by_color, group_by, firstOccurrences, Point.mk.injEq, Except.toOption,
      bind, Except.bind]
  refine ⟨by simp [hfront], by simp [hback], ?_, ?_⟩
  · rw [hfront, hback]
    norm_num [TokenGroup.mk.injEq, Shape.mk.injEq, Point.mk.injEq]
  · rw [hfront, hback]
    rfl

end Tokenify
